import Mathlib

/-!
Shallow embedding of the mail-capture server `src/server.py`
(class `MailTrapHandler` with `handle_DATA`, and the API endpoint
`delete_email`), together with theorems settling the frozen claims.

Modelling conventions:
* Python strings are Lean `String`s; raw byte payloads are `List Nat`.
* `bytes.decode()` (Python's default UTF-8 decode) is modelled on its
  ASCII fragment: it succeeds exactly when every byte is below 128.
  Bytes ≥ 128 standing alone are invalid UTF-8, so failures produced by
  the model are genuine decode failures of the source.
* Filesystem writes of attachment blobs are modelled atomically
  (a write either stores the whole blob under its path or raises);
  which writes raise is injected through the environment.
* The `email.message_from_bytes` parse of the raw transmission is
  abstracted as an already-structured `Message` (`none` = parser raised):
  the stdlib parser is external to this repository.
* The record-file write (`open(self.emails_file, 'w')` followed by
  `json.dump`) may be made to raise through the environment. It runs
  AFTER `self.emails.append(email_data)`, so a failed write leaves the
  appended record in the in-memory list; the failure is modelled as the
  open-for-write truncation with nothing durably written (the file is
  left empty).
-/

namespace MailTrap

/-- Helper: does the character list start with the given needle? -/
def leadMatch : List Char → List Char → Bool
  | [], _ => true
  | _ :: _, [] => false
  | a :: as, b :: bs => a == b && leadMatch as bs

/-- Helper: does the haystack contain the needle as a contiguous run? -/
def hasSub (n : List Char) : List Char → Bool
  | [] => leadMatch n []
  | c :: rest => leadMatch n (c :: rest) || hasSub n rest

/-- Python's `needle in haystack` substring test. -/
def strContains (haystack needle : String) : Bool :=
  hasSub needle.data haystack.data

/-- Python's `str.lower()` (ASCII fragment). -/
def lowerStr (s : String) : String :=
  ⟨s.data.map Char.toLower⟩

/-- Python's `str(x)` on an optional header value: `str(None) = "None"`. -/
def pyStrOfOpt : Option String → String
  | none => "None"
  | some s => s

/-- Python's truthiness test `not x` on an optional string:
`None` and the empty string are falsy. -/
def pyNotStr : Option String → Bool
  | none => true
  | some s => s == ""

/-- Model of Python `bytes.decode()` on the ASCII fragment of UTF-8:
succeeds exactly when every byte is below 128. -/
def decodeAscii (bs : List Nat) : Option String :=
  if bs.all (fun b => b < 128) then some ⟨bs.map Char.ofNat⟩ else none

/-- Encode an ASCII string as bytes (used to build concrete messages). -/
def asciiBytes (s : String) : List Nat :=
  s.data.map Char.toNat

/-- One step of Python dict insertion: a repeated key keeps its original
position but takes the new value; a fresh key is appended. -/
def dictInsert (d : List (String × String)) (k v : String) :
    List (String × String) :=
  if d.any (fun kv => kv.1 == k) then
    d.map (fun kv => if kv.1 == k then (k, v) else kv)
  else d ++ [(k, v)]

/-- Python's `dict(items)`: fold the pairs by `dictInsert`
(last occurrence wins for duplicate keys). -/
def pyDict (items : List (String × String)) : List (String × String) :=
  items.foldl (fun d kv => dictInsert d kv.1 kv.2) []

/-- `email.message.Message.get(name)`: value of the first header whose
name matches case-insensitively, if any. -/
def msgGet (hs : List (String × String)) (name : String) : Option String :=
  (hs.find? (fun kv => lowerStr kv.1 == lowerStr name)).map (fun kv => kv.2)

/-- `msg.get(name, default)`. -/
def msgGetD (hs : List (String × String)) (name d : String) : String :=
  (msgGet hs name).getD d

/-- Tag-stripping automaton: the Bool flag says whether the scanner is
inside a `<...>` tag (tag content is dropped). -/
def stripTagsAux : Bool → List Char → List Char
  | _, [] => []
  | false, c :: cs =>
      if c = '<' then stripTagsAux true cs else c :: stripTagsAux false cs
  | true, c :: cs =>
      if c = '>' then stripTagsAux false cs else stripTagsAux true cs

/-- Modelled from the spec: the external `html2text` library's
`HTML2Text().handle` — "converting the HTML to plain text
(link/structure-stripped representation)". The library is not part of
this repository's sources; the model strips `<...>` markup and keeps the
library's trailing blank line (its output always ends in `"\n\n"`). -/
def html2textHandle (html : String) : String :=
  ⟨stripTagsAux false html.data ++ ['\n', '\n']⟩

/-- One entry of `email_data['attachments']` as built by `handle_DATA`:
`{'filename': ..., 'path': ..., 'content_type': ...}`. -/
structure AttachmentRef where
  filename : String
  path : String
  content_type : String
deriving DecidableEq, Repr

/-- The stored email record (`email_data` in `handle_DATA`). -/
structure EmailRecord where
  id : Nat
  from_address : String
  to_addrs : List String
  subject : String
  date : String
  content_text : Option String
  content_html : Option String
  attachments : List AttachmentRef
  headers : List (String × String)
deriving DecidableEq, Repr

/-- One part yielded by `msg.walk()` on a multipart message. The fields
mirror the accessors used by `handle_DATA`: `get_content_type()`,
`get('Content-Disposition')`, `get_filename()`, and
`get_payload(decode=True)` (the raw decoded bytes). -/
structure Part where
  contentType : String
  contentDisposition : Option String
  filename : Option String
  payloadBytes : List Nat
deriving DecidableEq, Repr

/-- The parsed message object. `walkParts` is the sequence yielded by
`msg.walk()` (the multipart container itself included, first), used when
`is_multipart` holds; `contentType`/`payloadBytes` are the whole-message
accessors used on the single-part path. -/
structure Message where
  headers : List (String × String)
  is_multipart : Bool
  walkParts : List Part
  contentType : String
  payloadBytes : List Nat
deriving DecidableEq, Repr

/-- The SMTP envelope passed to `handle_DATA`; `parsed` is the outcome of
`message_from_bytes(envelope.content)` (`none` = the parser raised). -/
structure Envelope where
  mail_from : String
  rcpt_tos : List String
  parsed : Option Message
deriving DecidableEq, Repr

/-- Contents of the attachments directory: path ↦ byte blob. -/
abbrev Blobs := List (String × List Nat)

/-- `str(self.attachments_dir)` for the default storage directory. -/
def attachmentsDir : String := "mail_storage/attachments"

/-- The collision-avoiding blob key `f'{email_id}_{filename}'`. -/
def storageKey (email_id : Nat) (filename : String) : String :=
  toString email_id ++ "_" ++ filename

/-- Full blob path `str(self.attachments_dir / f'{email_id}_{filename}')`. -/
def attachmentPath (email_id : Nat) (filename : String) : String :=
  attachmentsDir ++ "/" ++ storageKey email_id filename

/-- Write (create or overwrite) a blob under a path. -/
def setBlob : Blobs → String → List Nat → Blobs
  | [], k, v => [(k, v)]
  | e :: es, k, v => if e.1 == k then (k, v) :: es else e :: setBlob es k v

/-- Read a blob back by path. -/
def getBlob (bs : Blobs) (k : String) : Option (List Nat) :=
  (bs.find? (fun e => e.1 == k)).map (fun e => e.2)

/-- `os.remove(path)` wrapped in `try/except OSError: pass` — removing a
missing blob is a no-op, never an error. -/
def removeBlob (bs : Blobs) (k : String) : Blobs :=
  bs.filter (fun e => ¬ (e.1 == k))

/-- `'attachment' in str(part.get('Content-Disposition'))`. -/
def dispositionIsAttachment (p : Part) : Bool :=
  strContains (pyStrOfOpt p.contentDisposition) "attachment"

/-- Loop state of the `for part in msg.walk()` loop: the `attachments`
list and the `body_html`/`body_text` locals, plus the attachments
directory as mutated by writes performed so far. -/
structure WalkAcc where
  attachments : List AttachmentRef
  body_html : Option String
  body_text : Option String
  blobs : Blobs
deriving DecidableEq, Repr

/-- The body of the `for part in msg.walk()` loop for one part. An
`error` result models an exception escaping the loop body (a failed
decode or a failed blob write); it carries the attachments directory as
mutated up to that point, since completed file writes persist. -/
def processPart (env : List String) (email_id : Nat) (acc : WalkAcc)
    (p : Part) : Except Blobs WalkAcc :=
  if dispositionIsAttachment p then
    match p.filename with
    | some filename =>
        let path := attachmentPath email_id filename
        if path ∈ env then .error acc.blobs
        else .ok { acc with
                    blobs := setBlob acc.blobs path p.payloadBytes,
                    attachments := acc.attachments ++
                      [⟨filename, path, p.contentType⟩] }
    | none => .ok acc
  else if p.contentType == "text/html" then
    match decodeAscii p.payloadBytes with
    | none => .error acc.blobs
    | some html =>
        let acc := { acc with body_html := some html }
        if pyNotStr acc.body_text then
          .ok { acc with body_text := some (html2textHandle html) }
        else .ok acc
  else if p.contentType == "text/plain" then
    match decodeAscii p.payloadBytes with
    | none => .error acc.blobs
    | some t => .ok { acc with body_text := some t }
  else .ok acc

/-- The whole `for part in msg.walk()` loop. `env` is the set of blob
paths whose write raises (injected persistence failures). -/
def processParts (env : List String) (email_id : Nat) :
    WalkAcc → List Part → Except Blobs WalkAcc
  | acc, [] => .ok acc
  | acc, p :: ps =>
      match processPart env email_id acc p with
      | .error bs => .error bs
      | .ok acc' => processParts env email_id acc' ps

/-- The non-multipart branch of `handle_DATA`: returns
`(body_html, body_text)` or a decode failure. -/
def processSingle (msg : Message) : Except Unit (Option String × Option String) :=
  if msg.contentType == "text/html" then
    match decodeAscii msg.payloadBytes with
    | none => .error ()
    | some html => .ok (some html, some (html2textHandle html))
  else
    match decodeAscii msg.payloadBytes with
    | none => .error ()
    | some t => .ok (none, some t)

/-- Durable and in-memory state touched by the server: the long-lived
SMTP handler's `self.emails` list, the contents of `emails.json`, and
the attachments directory. API endpoints construct a fresh handler from
`emailsFile`; `handle_DATA` runs against the long-lived `emails`. -/
structure Store where
  emails : List EmailRecord
  emailsFile : List EmailRecord
  blobs : Blobs
deriving DecidableEq, Repr

/-- State of a freshly started server over an empty storage directory. -/
def emptyStore : Store := ⟨[], [], []⟩

/-- Ingestion environment: blob paths whose write raises, the value
`datetime.now().isoformat()` would produce at this call, and whether
the record-file write (`open(self.emails_file, 'w')`/`json.dump`)
raises during this call. -/
structure Env where
  blobWriteFails : List String
  nowIso : String
  dumpFails : Bool
deriving DecidableEq, Repr

/-- The MIME decomposition step of `handle_DATA`: dispatch on
`msg.is_multipart()` and produce `(attachments, body_html, body_text)`
together with the attachments directory after any writes, or an error
carrying the directory as mutated before the exception. -/
def walkResult (env : Env) (email_id : Nat) (bs : Blobs) (msg : Message) :
    Except Blobs (List AttachmentRef × Option String × Option String × Blobs) :=
  if msg.is_multipart then
    match processParts env.blobWriteFails email_id
        ⟨[], none, none, bs⟩ msg.walkParts with
    | .error b => .error b
    | .ok acc => .ok (acc.attachments, acc.body_html, acc.body_text, acc.blobs)
  else
    match processSingle msg with
    | .error _ => .error bs
    | .ok (bh, bt) => .ok ([], bh, bt, bs)

/-- `MailTrapHandler.handle_DATA`. Returns the SMTP response string and
the state after the call; the surrounding `try/except Exception` turns
every failure into the `'500 Error processing message'` response. -/
def handle_DATA (env : Env) (st : Store) (envelope : Envelope) :
    String × Store :=
  match envelope.parsed with
  | none => ("500 Error processing message", st)
  | some msg =>
      let email_id := st.emails.length + 1
      let subject := msgGetD msg.headers "subject" ""
      let date := msgGetD msg.headers "date" env.nowIso
      match walkResult env email_id st.blobs msg with
      | .error bs => ("500 Error processing message", { st with blobs := bs })
      | .ok (atts, bh, bt, bs) =>
          let email_data : EmailRecord :=
            { id := email_id
              from_address := envelope.mail_from
              to_addrs := envelope.rcpt_tos
              subject := subject
              date := date
              content_text := bt
              content_html := bh
              attachments := atts
              headers := pyDict msg.headers }
          let ems := st.emails ++ [email_data]
          if env.dumpFails then
            ("500 Error processing message",
             { emails := ems, emailsFile := [], blobs := bs })
          else
            ("250 Message accepted for delivery",
             { emails := ems, emailsFile := ems, blobs := bs })

/-- Outcome of the `DELETE /api/emails/{email_id}` endpoint. -/
inductive DeleteResult where
  | deleted
  | notFound
deriving DecidableEq, Repr

/-- The `delete_email` endpoint. It builds a fresh `MailTrapHandler`
(loading `emails.json` from disk), 404s when no record has the id, and
otherwise rewrites the file without the matching records and removes the
found record's attachment blobs (tolerating missing blobs). The
long-lived SMTP handler's in-memory list is untouched. -/
def delete_email (st : Store) (email_id : Nat) : DeleteResult × Store :=
  let handlerEmails := st.emailsFile
  match handlerEmails.find? (fun e => e.id == email_id) with
  | none => (.notFound, st)
  | some email =>
      let remaining := handlerEmails.filter (fun e => ¬ (e.id == email_id))
      let blobs := email.attachments.foldl
        (fun bs a => removeBlob bs a.path) st.blobs
      (.deleted, { st with emailsFile := remaining, blobs := blobs })

/-- `MailTrapHandler.__init__` over an existing storage directory: the
in-memory list is (re)loaded from `emails.json`. Models a process
restart of the SMTP server. -/
def restartHandler (st : Store) : Store :=
  { st with emails := st.emailsFile }

/-- An operation against the running system: an SMTP ingestion, an API
deletion, or a restart of the SMTP server process. -/
inductive Op where
  | ingest (envelope : Envelope)
  | delete (email_id : Nat)
  | restart
deriving DecidableEq, Repr

/-- Effect of one operation on the system state. -/
def stepOp (env : Env) (st : Store) : Op → Store
  | .ingest e => (handle_DATA env st e).2
  | .delete i => (delete_email st i).2
  | .restart => restartHandler st

/-- Run a sequence of operations. -/
def runOps (env : Env) : Store → List Op → Store
  | st, [] => st
  | st, o :: os => runOps env (stepOp env st o) os

/-- Did this ingestion succeed (return the 250 acceptance code)? -/
def ingestOk (env : Env) (st : Store) (e : Envelope) : Bool :=
  (handle_DATA env st e).1 == "250 Message accepted for delivery"

/-- The identifiers `handle_DATA` assigns to the records it commits
along a run (ids of successful ingestions only, in order). -/
def assignedIds (env : Env) : Store → List Op → List Nat
  | _, [] => []
  | st, .ingest e :: os =>
      if ingestOk env st e then
        (st.emails.length + 1) :: assignedIds env (stepOp env st (.ingest e)) os
      else assignedIds env (stepOp env st (.ingest e)) os
  | st, o :: os => assignedIds env (stepOp env st o) os

/-! Helper lemmas shared by the claim theorems. -/

theorem getBlob_setBlob (bs : Blobs) (k : String) (v : List Nat) :
    getBlob (setBlob bs k v) k = some v := by
  induction bs with
  | nil => simp [setBlob, getBlob]
  | cons e es ih =>
      by_cases h : e.1 == k
      · simp [setBlob, getBlob, h]
      · simp only [setBlob, h, Bool.false_eq_true, if_false]
        simpa [getBlob, List.find?, h] using ih

theorem getBlob_setBlob_ne (bs : Blobs) (k k' : String) (v : List Nat)
    (h : k' ≠ k) : getBlob (setBlob bs k v) k' = getBlob bs k' := by
  have hkk : (k == k') = false := beq_eq_false_iff_ne.mpr (Ne.symm h)
  induction bs with
  | nil => simp [setBlob, getBlob, List.find?, hkk]
  | cons e es ih =>
      by_cases he : e.1 == k
      · have he1 : e.1 = k := eq_of_beq he
        simp [setBlob, getBlob, List.find?, he, hkk, he1]
      · have he' : (e.1 == k) = false := by simpa using he
        by_cases he2 : e.1 == k'
        · simp [setBlob, getBlob, List.find?, he', he2]
        · have he2' : (e.1 == k') = false := by simpa using he2
          simpa [setBlob, getBlob, List.find?, he', he2'] using ih

theorem getBlob_removeBlob (bs : Blobs) (k : String) :
    getBlob (removeBlob bs k) k = none := by
  induction bs with
  | nil => simp [removeBlob, getBlob]
  | cons e es ih =>
      by_cases he : e.1 == k
      · have hstep : removeBlob (e :: es) k = removeBlob es k := by
          simp [removeBlob, List.filter, he]
        rw [hstep]
        exact ih
      · have he' : (e.1 == k) = false := by simpa using he
        simp only [removeBlob, getBlob, List.filter, List.find?, he',
          decide_not, Bool.not_false, if_true] at ih ⊢
        exact ih

theorem getBlob_removeBlob_none (bs : Blobs) (k k' : String)
    (h : getBlob bs k = none) : getBlob (removeBlob bs k') k = none := by
  induction bs with
  | nil => simp [removeBlob, getBlob]
  | cons e es ih =>
      by_cases he : e.1 == k
      · exfalso
        simp [getBlob, List.find?, he] at h
      · have he' : (e.1 == k) = false := by simpa using he
        have h2 : getBlob es k = none := by
          simpa [getBlob, List.find?, he'] using h
        by_cases hk2 : e.1 == k'
        · simpa [removeBlob, List.filter, hk2] using ih h2
        · have hk2' : (e.1 == k') = false := by simpa using hk2
          simpa [removeBlob, getBlob, List.filter, List.find?, he', hk2'] using ih h2

/-- Folding blob removals preserves absence of a path. -/
theorem getBlob_fold_removeBlob_none (as : List AttachmentRef) (bs : Blobs)
    (k : String) (h : getBlob bs k = none) :
    getBlob (as.foldl (fun b a => removeBlob b a.path) bs) k = none := by
  induction as generalizing bs with
  | nil => simpa using h
  | cons a rest ih =>
      simp only [List.foldl]
      exact ih _ (getBlob_removeBlob_none _ _ _ h)

/-- Removing every path in `as` leaves any of those paths absent. -/
theorem getBlob_fold_removeBlob (as : List AttachmentRef) (bs : Blobs)
    (k : String) (h : k ∈ as.map (fun a => a.path)) :
    getBlob (as.foldl (fun b a => removeBlob b a.path) bs) k = none := by
  induction as generalizing bs with
  | nil => simp at h
  | cons a rest ih =>
      simp only [List.map_cons, List.mem_cons] at h
      simp only [List.foldl]
      rcases h with h | h
      · exact getBlob_fold_removeBlob_none rest _ _ (h ▸ getBlob_removeBlob bs a.path)
      · exact ih _ h

/-- `handle_DATA` returns exactly one of the two response strings. -/
theorem handle_DATA_outcomes (env : Env) (st : Store) (e : Envelope) :
    (handle_DATA env st e).1 = "250 Message accepted for delivery" ∨
      (handle_DATA env st e).1 = "500 Error processing message" := by
  unfold handle_DATA
  cases hp : e.parsed with
  | none => simp
  | some msg =>
      cases hw : walkResult env (st.emails.length + 1) st.blobs msg with
      | error bs => simp [hw]
      | ok q =>
          obtain ⟨atts, bh, bt, bs⟩ := q
          cases hd : env.dumpFails <;> simp [hw, hd]

/-- A successful `handle_DATA` appends exactly one record to the
in-memory list and mirrors the result into the emails file. -/
theorem handle_DATA_ok_append (env : Env) (st : Store) (e : Envelope)
    (h : (handle_DATA env st e).1 = "250 Message accepted for delivery") :
    ∃ r : EmailRecord, r.id = st.emails.length + 1 ∧
      (handle_DATA env st e).2.emails = st.emails ++ [r] ∧
      (handle_DATA env st e).2.emailsFile = st.emails ++ [r] := by
  unfold handle_DATA at h ⊢
  cases hp : e.parsed with
  | none => simp [hp] at h
  | some msg =>
      simp only [hp] at h ⊢
      cases hw : walkResult env (st.emails.length + 1) st.blobs msg with
      | error bs => simp [hw] at h
      | ok q =>
          obtain ⟨atts, bh, bt, bs⟩ := q
          cases hd : env.dumpFails with
          | true => simp [hw, hd] at h
          | false =>
              simp only [hw, hd, Bool.false_eq_true, if_false]
              exact ⟨_, rfl, rfl, rfl⟩

/-- `handle_DATA` never shrinks the in-memory record list (a failure
leaves it unchanged except for the record-write failure, which keeps
the record appended before the dump raised). -/
theorem handle_DATA_emails_len_mono (env : Env) (st : Store) (e : Envelope) :
    st.emails.length ≤ (handle_DATA env st e).2.emails.length := by
  unfold handle_DATA
  cases hp : e.parsed with
  | none => simp
  | some msg =>
      cases hw : walkResult env (st.emails.length + 1) st.blobs msg with
      | error bs => simp [hw]
      | ok q =>
          obtain ⟨atts, bh, bt, bs⟩ := q
          cases hd : env.dumpFails <;> simp [hw, hd]

/-- `delete_email` never touches the SMTP handler's in-memory list. -/
theorem delete_email_emails (st : Store) (i : Nat) :
    (delete_email st i).2.emails = st.emails := by
  unfold delete_email
  cases h : st.emailsFile.find? (fun e => e.id == i) with
  | none => simp [h]
  | some email => simp [h]

/-! Concrete inputs used by witnesses and counterexamples. -/

/-- A fixed ingestion environment: no injected write failures. -/
def env0 : Env := ⟨[], "2026-01-01T00:00:00", false⟩

/-- An environment whose record-file write raises. -/
def envDump : Env := ⟨[], "2026-01-01T00:00:00", true⟩

/-- A minimal pre-existing stored record. -/
def rec0 : EmailRecord :=
  ⟨1, "old@x", ["r@y"], "", "d", some "old", none, [], []⟩

/-- A single-part plain-text message with the given body. -/
def textMsg (s : String) : Message :=
  ⟨[], false, [], "text/plain", asciiBytes s⟩

/-- An envelope carrying a single-part plain-text message. -/
def textEnvlp (s : String) : Envelope :=
  ⟨"sender@example.com", ["rcpt@example.com"], some (textMsg s)⟩

/-- The multipart container itself, as yielded first by `msg.walk()`. -/
def containerPart : Part := ⟨"multipart/mixed", none, none, []⟩

/-- An attachment part: disposition declares an attachment with
filename `a.txt`, payload is the single byte 97. -/
def attPart : Part :=
  ⟨"application/pdf", some "attachment; filename=a.txt", some "a.txt", [97]⟩

/-- A plain-text part whose payload (byte 200) is undecodable. -/
def badTextPart : Part := ⟨"text/plain", none, none, [200]⟩

/-- An HTML body part. -/
def htmlPart : Part := ⟨"text/html", none, none, asciiBytes "<p>Hello</p>"⟩

/-- The tag-stripping automaton never emits a tag opener. -/
theorem stripTagsAux_no_lt (cs : List Char) (b : Bool) :
    '<' ∉ stripTagsAux b cs := by
  induction cs generalizing b with
  | nil => cases b <;> simp [stripTagsAux]
  | cons c rest ih =>
      cases b with
      | false =>
          by_cases hc : c = '<'
          · simpa [stripTagsAux, hc] using ih true
          · simp only [stripTagsAux, hc, if_false]
            intro hmem
            rcases List.mem_cons.mp hmem with h | h
            · exact hc h.symm
            · exact ih false h
      | true =>
          by_cases hc : c = '>'
          · simpa [stripTagsAux, hc] using ih false
          · simpa [stripTagsAux, hc] using ih true

/-- The modelled HTML-to-text output is never empty (it always ends
with the library's trailing blank line). -/
theorem html2textHandle_ne_empty (s : String) : html2textHandle s ≠ "" := by
  unfold html2textHandle
  intro h
  have hdata := congrArg String.data h
  simp at hdata

/-- The modelled HTML-to-text output contains no markup opener. -/
theorem html2textHandle_no_lt (s : String) :
    '<' ∉ (html2textHandle s).data := by
  unfold html2textHandle
  intro hmem
  rcases List.mem_append.mp hmem with h | h
  · exact stripTagsAux_no_lt s.data false h
  · simp at h

/-! The claims. -/

/-- Claim C8: `handle_DATA` always returns one of exactly two
transport-visible outcomes — `'250 Message accepted for delivery'` on
success or the `'500 Error processing message'` 5xx code on any
failure — and, being a total function of its inputs, never propagates
an exception: every parse, decode or persistence error (modelled by
`parsed = none`, decode failures, and injected blob-write failures) is
converted to the 500 response. -/
theorem C8_handle_DATA_two_outcomes (env : Env) (st : Store) (e : Envelope) :
    (handle_DATA env st e).1 = "250 Message accepted for delivery" ∨
      (handle_DATA env st e).1 = "500 Error processing message" :=
  handle_DATA_outcomes env st e

/-- Claim C4: for every well-formed (decodable) single-part plain-text
message, ingestion succeeds and commits a record whose `content_text`
is the decoded payload, whose `content_html` is unset, and whose
attachment list is empty. -/
theorem C4_singlepart_plaintext_roundtrip (env : Env) (st : Store)
    (mf : String) (rt : List String) (hs : List (String × String))
    (bs : List Nat) (txt : String) (hdec : decodeAscii bs = some txt)
    (hdf : env.dumpFails = false) :
    (handle_DATA env st ⟨mf, rt, some ⟨hs, false, [], "text/plain", bs⟩⟩).1 =
      "250 Message accepted for delivery" ∧
    ∃ r : EmailRecord,
      (handle_DATA env st ⟨mf, rt, some ⟨hs, false, [], "text/plain", bs⟩⟩).2.emails =
        st.emails ++ [r] ∧
      r.content_text = some txt ∧ r.content_html = none ∧
      r.attachments = [] := by
  have hne : (("text/plain" : String) == "text/html") = false := by decide
  simp only [handle_DATA, walkResult, processSingle, hne, hdf,
    Bool.false_eq_true, if_false, hdec]
  exact ⟨trivial, _, rfl, rfl, rfl, rfl⟩

/-- Witness for C4 at a concrete message. -/
theorem C4_witness :
    (handle_DATA env0 emptyStore
        ⟨"s@x", ["r@y"], some ⟨[], false, [], "text/plain", asciiBytes "hi"⟩⟩).1 =
      "250 Message accepted for delivery" ∧
    ∃ r : EmailRecord,
      (handle_DATA env0 emptyStore
          ⟨"s@x", ["r@y"], some ⟨[], false, [], "text/plain", asciiBytes "hi"⟩⟩).2.emails =
        emptyStore.emails ++ [r] ∧
      r.content_text = some "hi" ∧ r.content_html = none ∧
      r.attachments = [] :=
  C4_singlepart_plaintext_roundtrip env0 emptyStore "s@x" ["r@y"] []
    (asciiBytes "hi") "hi" (by decide) rfl

/-- Claim C3: for every multipart message with exactly one HTML body
part and one attachment part (attachment disposition with a declared
filename), in either order after the container, successful ingestion
commits a record with `content_html` the decoded HTML payload,
`content_text` derived from it (non-empty, markup stripped), and
exactly one AttachmentRef whose path is the attachments directory plus
the storage key `{id}_{filename}` for the assigned id, with the
attachment bytes persisted under that key. -/
theorem C3_multipart_html_attachment (env : Env) (st : Store)
    (mf : String) (rt : List String) (hs : List (String × String))
    (mct : String) (mpb : List Nat)
    (c : Part) (hcA : dispositionIsAttachment c = false)
    (hcH : (c.contentType == "text/html") = false)
    (hcT : (c.contentType == "text/plain") = false)
    (hdisp hfn : Option String) (hbs : List Nat) (html : String)
    (hHA : strContains (pyStrOfOpt hdisp) "attachment" = false)
    (hdec : decodeAscii hbs = some html)
    (adisp fname act : String) (apb : List Nat)
    (haA : strContains adisp "attachment" = true)
    (hw : attachmentPath (st.emails.length + 1) fname ∉ env.blobWriteFails)
    (hdf : env.dumpFails = false)
    (ps : List Part)
    (horder :
      ps = [c, ⟨"text/html", hdisp, hfn, hbs⟩, ⟨act, some adisp, some fname, apb⟩] ∨
      ps = [c, ⟨act, some adisp, some fname, apb⟩, ⟨"text/html", hdisp, hfn, hbs⟩]) :
    (handle_DATA env st ⟨mf, rt, some ⟨hs, true, ps, mct, mpb⟩⟩).1 =
      "250 Message accepted for delivery" ∧
    ∃ r : EmailRecord,
      (handle_DATA env st ⟨mf, rt, some ⟨hs, true, ps, mct, mpb⟩⟩).2.emails =
        st.emails ++ [r] ∧
      r.content_html = some html ∧
      r.content_text = some (html2textHandle html) ∧
      html2textHandle html ≠ "" ∧
      '<' ∉ (html2textHandle html).data ∧
      r.attachments =
        [⟨fname, attachmentPath (st.emails.length + 1) fname, act⟩] ∧
      storageKey (st.emails.length + 1) fname =
        toString (st.emails.length + 1) ++ "_" ++ fname ∧
      getBlob (handle_DATA env st ⟨mf, rt, some ⟨hs, true, ps, mct, mpb⟩⟩).2.blobs
          (attachmentPath (st.emails.length + 1) fname) = some apb := by
  have hbeq : (("text/html" : String) == "text/html") = true := by decide
  have hH' : dispositionIsAttachment ⟨"text/html", hdisp, hfn, hbs⟩ = false := hHA
  have hA' : dispositionIsAttachment ⟨act, some adisp, some fname, apb⟩ = true := haA
  rcases horder with h | h <;> subst h <;>
    simp only [handle_DATA, walkResult, processParts, processPart, pyNotStr,
      hcA, hcH, hcT, hH', hA', hbeq, hdec, hw, hdf, Bool.false_eq_true,
      if_false, if_true, not_false_eq_true] <;>
    exact ⟨trivial, _, rfl, rfl, rfl, html2textHandle_ne_empty html,
      html2textHandle_no_lt html, rfl, rfl, getBlob_setBlob _ _ _⟩

/-- Witness for C3 at a concrete HTML-plus-attachment message. -/
theorem C3_witness :
    (handle_DATA env0 emptyStore ⟨"s@x", ["r@y"],
        some ⟨[("Subject", "Hi")], true,
          [containerPart, ⟨"text/html", none, none, asciiBytes "<p>Hello</p>"⟩,
           ⟨"application/pdf", some "attachment; filename=a.txt", some "a.txt", [97]⟩],
          "multipart/mixed", []⟩⟩).1 = "250 Message accepted for delivery" ∧
    ∃ r : EmailRecord,
      (handle_DATA env0 emptyStore ⟨"s@x", ["r@y"],
          some ⟨[("Subject", "Hi")], true,
            [containerPart, ⟨"text/html", none, none, asciiBytes "<p>Hello</p>"⟩,
             ⟨"application/pdf", some "attachment; filename=a.txt", some "a.txt", [97]⟩],
            "multipart/mixed", []⟩⟩).2.emails =
        emptyStore.emails ++ [r] ∧
      r.content_html = some "<p>Hello</p>" ∧
      r.content_text = some (html2textHandle "<p>Hello</p>") ∧
      html2textHandle "<p>Hello</p>" ≠ "" ∧
      '<' ∉ (html2textHandle "<p>Hello</p>").data ∧
      r.attachments =
        [⟨"a.txt", attachmentPath (emptyStore.emails.length + 1) "a.txt",
          "application/pdf"⟩] ∧
      storageKey (emptyStore.emails.length + 1) "a.txt" =
        toString (emptyStore.emails.length + 1) ++ "_" ++ "a.txt" ∧
      getBlob (handle_DATA env0 emptyStore ⟨"s@x", ["r@y"],
          some ⟨[("Subject", "Hi")], true,
            [containerPart, ⟨"text/html", none, none, asciiBytes "<p>Hello</p>"⟩,
             ⟨"application/pdf", some "attachment; filename=a.txt", some "a.txt", [97]⟩],
            "multipart/mixed", []⟩⟩).2.blobs
          (attachmentPath (emptyStore.emails.length + 1) "a.txt") = some [97] :=
  C3_multipart_html_attachment env0 emptyStore "s@x" ["r@y"] [("Subject", "Hi")]
    "multipart/mixed" [] containerPart (by decide) (by decide) (by decide)
    none none (asciiBytes "<p>Hello</p>") "<p>Hello</p>" (by decide) (by decide)
    "attachment; filename=a.txt" "a.txt" "application/pdf" [97] (by decide)
    (by decide) rfl _ (Or.inl rfl)

/-- Claim C5 (as stated) is false: in a multipart message with two
plain-text parts, the later part's payload overwrites the earlier one.
Concretely, a message whose two text parts decode to `"first"` and
`"second"` yields `content_text = "second"`, not `"first"`. -/
theorem C5_counterexample :
    decodeAscii (asciiBytes "first") = some "first" ∧
    decodeAscii (asciiBytes "second") = some "second" ∧
    (handle_DATA env0 emptyStore ⟨"s@x", ["r@y"],
        some ⟨[], true,
          [containerPart, ⟨"text/plain", none, none, asciiBytes "first"⟩,
           ⟨"text/plain", none, none, asciiBytes "second"⟩],
          "multipart/mixed", []⟩⟩).2.emails.map (fun r => r.content_text) =
      [some "second"] ∧
    some "second" ≠ some "first" := by
  decide

/-- Claim C5 amended: during multipart visitation a later plain-text
part DOES overwrite an already-set `content_text`; for every multipart
message with two decodable plain-text body parts, the committed
`content_text` is the decoded payload of the LAST such part. -/
theorem C5_amended_last_text_part_wins (env : Env) (st : Store)
    (mf : String) (rt : List String) (hs : List (String × String))
    (mct : String) (mpb : List Nat)
    (c : Part) (hcA : dispositionIsAttachment c = false)
    (hcH : (c.contentType == "text/html") = false)
    (hcT : (c.contentType == "text/plain") = false)
    (d1 d2 f1 f2 : Option String) (bs1 bs2 : List Nat) (s1 s2 : String)
    (h1A : strContains (pyStrOfOpt d1) "attachment" = false)
    (h2A : strContains (pyStrOfOpt d2) "attachment" = false)
    (hdec1 : decodeAscii bs1 = some s1)
    (hdec2 : decodeAscii bs2 = some s2)
    (hdf : env.dumpFails = false) :
    (handle_DATA env st ⟨mf, rt,
        some ⟨hs, true,
          [c, ⟨"text/plain", d1, f1, bs1⟩, ⟨"text/plain", d2, f2, bs2⟩],
          mct, mpb⟩⟩).1 = "250 Message accepted for delivery" ∧
    ∃ r : EmailRecord,
      (handle_DATA env st ⟨mf, rt,
          some ⟨hs, true,
            [c, ⟨"text/plain", d1, f1, bs1⟩, ⟨"text/plain", d2, f2, bs2⟩],
            mct, mpb⟩⟩).2.emails = st.emails ++ [r] ∧
      r.content_text = some s2 := by
  have h1' : dispositionIsAttachment ⟨"text/plain", d1, f1, bs1⟩ = false := h1A
  have h2' : dispositionIsAttachment ⟨"text/plain", d2, f2, bs2⟩ = false := h2A
  have hpH : (("text/plain" : String) == "text/html") = false := by decide
  have hpT : (("text/plain" : String) == "text/plain") = true := by decide
  simp only [handle_DATA, walkResult, processParts, processPart, pyNotStr,
    hcA, hcH, hcT, h1', h2', hpH, hpT, hdec1, hdec2, hdf, Bool.false_eq_true,
    if_false, if_true]
  exact ⟨trivial, _, rfl, rfl⟩

/-- Witness for C5's amended theorem at a concrete two-text message. -/
theorem C5_amended_witness :
    (handle_DATA env0 emptyStore ⟨"s@x", ["r@y"],
        some ⟨[], true,
          [containerPart, ⟨"text/plain", none, none, asciiBytes "first"⟩,
           ⟨"text/plain", none, none, asciiBytes "second"⟩],
          "multipart/mixed", []⟩⟩).1 = "250 Message accepted for delivery" ∧
    ∃ r : EmailRecord,
      (handle_DATA env0 emptyStore ⟨"s@x", ["r@y"],
          some ⟨[], true,
            [containerPart, ⟨"text/plain", none, none, asciiBytes "first"⟩,
             ⟨"text/plain", none, none, asciiBytes "second"⟩],
            "multipart/mixed", []⟩⟩).2.emails = emptyStore.emails ++ [r] ∧
      r.content_text = some "second" :=
  C5_amended_last_text_part_wins env0 emptyStore "s@x" ["r@y"] []
    "multipart/mixed" [] containerPart (by decide) (by decide) (by decide)
    none none none none (asciiBytes "first") (asciiBytes "second")
    "first" "second" (by decide) (by decide) (by decide) (by decide) rfl

/-- Claim C6 (as stated) is false: a part whose disposition indicates
an attachment but which declares no filename is NOT processed as body
content — it is silently dropped. Concretely, a multipart message whose
only leaf is a decodable `text/plain` part with disposition
`attachment` and no filename is accepted with `content_text = none`,
`content_html = none` and no attachments, instead of
`content_text = "hello"` as the claim requires. -/
theorem C6_counterexample :
    decodeAscii (asciiBytes "hello") = some "hello" ∧
    (handle_DATA env0 emptyStore ⟨"s@x", ["r@y"],
        some ⟨[], true,
          [containerPart, ⟨"text/plain", some "attachment", none, asciiBytes "hello"⟩],
          "multipart/mixed", []⟩⟩).1 = "250 Message accepted for delivery" ∧
    (handle_DATA env0 emptyStore ⟨"s@x", ["r@y"],
        some ⟨[], true,
          [containerPart, ⟨"text/plain", some "attachment", none, asciiBytes "hello"⟩],
          "multipart/mixed", []⟩⟩).2.emails.map
        (fun r => (r.content_text, r.content_html, r.attachments)) =
      [(none, none, [])] := by
  decide

/-- Claim C6 amended: a leaf part is classified as an attachment only
when its disposition metadata indicates attachment intent AND it
declares a filename; a part whose disposition indicates attachment but
which declares no filename is skipped entirely — the loop body leaves
the accumulated state unchanged (neither an attachment nor body
content). Moreover a part without attachment disposition never adds an
attachment. -/
theorem C6_amended_no_filename_part_dropped (env : List String)
    (email_id : Nat) (acc acc' : WalkAcc) (p : Part) :
    (dispositionIsAttachment p = true → p.filename = none →
      processPart env email_id acc p = .ok acc) ∧
    (dispositionIsAttachment p = false →
      processPart env email_id acc p = .ok acc' →
      acc'.attachments = acc.attachments) := by
  constructor
  · intro h1 h2
    simp [processPart, h1, h2]
  · intro h1 h2
    simp only [processPart, h1, Bool.false_eq_true, if_false] at h2
    by_cases hH : p.contentType == "text/html"
    · simp only [hH, if_true] at h2
      cases hdec : decodeAscii p.payloadBytes with
      | none => simp [hdec] at h2
      | some html =>
          simp only [hdec] at h2
          by_cases hbt : pyNotStr acc.body_text
          · simp only [hbt, if_true, Except.ok.injEq] at h2
            subst h2
            rfl
          · simp only [hbt, Bool.false_eq_true, if_false, Except.ok.injEq] at h2
            subst h2
            rfl
    · simp only [hH, Bool.false_eq_true, if_false] at h2
      by_cases hT : p.contentType == "text/plain"
      · simp only [hT, if_true] at h2
        cases hdec : decodeAscii p.payloadBytes with
        | none => simp [hdec] at h2
        | some t =>
            simp only [hdec, Except.ok.injEq] at h2
            subst h2
            rfl
      · simp only [hT, Bool.false_eq_true, if_false, Except.ok.injEq] at h2
        subst h2
        rfl

/-- Witness for C6's amended theorem: a concrete attachment-disposition
part without filename leaves the loop state unchanged. -/
theorem C6_amended_witness :
    processPart [] 1 ⟨[], none, none, []⟩
      ⟨"text/plain", some "attachment", none, asciiBytes "hello"⟩ =
      .ok ⟨[], none, none, []⟩ :=
  (C6_amended_no_filename_part_dropped [] 1 ⟨[], none, none, []⟩
      ⟨[], none, none, []⟩
      ⟨"text/plain", some "attachment", none, asciiBytes "hello"⟩).1
    (by decide) rfl

/-- Claim C9 (as stated) is false on its "unparsable date" half: the
code never parses the date header, so a present but unparsable value is
stored verbatim instead of being replaced by the ingestion timestamp.
Concretely, a message with header `Date: not-a-date` is committed with
`date = "not-a-date"`, not the ingestion time. -/
theorem C9_counterexample :
    (handle_DATA env0 emptyStore ⟨"s@x", ["r@y"],
        some ⟨[("Date", "not-a-date")], false, [], "text/plain",
          asciiBytes "hi"⟩⟩).2.emails.map (fun r => (r.subject, r.date)) =
      [("", "not-a-date")] ∧
    "not-a-date" ≠ env0.nowIso := by
  decide

/-- Claim C9 amended: on successful ingestion, `subject` is the value
of the first subject header (case-insensitive), defaulting to the empty
string when the header is absent; `date` is the value of the first date
header stored verbatim — parsable or not — defaulting to the ingestion
timestamp only when the header is absent (`msgGetD hs n d` is the first
case-insensitive match for `n` in `hs`, or `d` when there is none). -/
theorem C9_amended_subject_date_defaults (env : Env) (st : Store)
    (mf : String) (rt : List String) (msg : Message)
    (hok : (handle_DATA env st ⟨mf, rt, some msg⟩).1 =
      "250 Message accepted for delivery") :
    ∃ r : EmailRecord,
      (handle_DATA env st ⟨mf, rt, some msg⟩).2.emails = st.emails ++ [r] ∧
      r.subject = msgGetD msg.headers "subject" "" ∧
      r.date = msgGetD msg.headers "date" env.nowIso := by
  unfold handle_DATA at hok ⊢
  cases hw : walkResult env (st.emails.length + 1) st.blobs msg with
  | error bs => simp [hw] at hok
  | ok q =>
      obtain ⟨atts, bh, bt, bs⟩ := q
      cases hd : env.dumpFails with
      | true => simp [hw, hd] at hok
      | false =>
          simp only [hw, hd, Bool.false_eq_true, if_false]
          exact ⟨_, rfl, rfl, rfl⟩

/-- Witness for C9's amended theorem at a concrete message with neither
a subject nor a date header. -/
theorem C9_amended_witness :
    ∃ r : EmailRecord,
      (handle_DATA env0 emptyStore ⟨"s@x", ["r@y"], some (textMsg "hi")⟩).2.emails =
        emptyStore.emails ++ [r] ∧
      r.subject = msgGetD (textMsg "hi").headers "subject" "" ∧
      r.date = msgGetD (textMsg "hi").headers "date" env0.nowIso :=
  C9_amended_subject_date_defaults env0 emptyStore "s@x" ["r@y"]
    (textMsg "hi") (by decide)

/-- Claim C2 (as stated) is false on two counts. (1) No orphan blob: a
multipart message whose attachment part is written successfully and
whose following text part fails to decode is rejected with the 500
response and unchanged record lists, yet the blob `1_a.txt` written
during the failed attempt persists. (2) Record-write failure: the
source appends to `self.emails` BEFORE dumping the file, so when the
dump raises the handler returns 500 with the appended record still in
the in-memory list (ids `[1, 2]` below) and the emails file truncated
(it loses the pre-existing record `rec0`). -/
theorem C2_counterexample :
    (handle_DATA env0 emptyStore ⟨"s@x", ["r@y"],
        some ⟨[], true, [containerPart, attPart, badTextPart],
          "multipart/mixed", []⟩⟩).1 = "500 Error processing message" ∧
    (handle_DATA env0 emptyStore ⟨"s@x", ["r@y"],
        some ⟨[], true, [containerPart, attPart, badTextPart],
          "multipart/mixed", []⟩⟩).2.emails = [] ∧
    (handle_DATA env0 emptyStore ⟨"s@x", ["r@y"],
        some ⟨[], true, [containerPart, attPart, badTextPart],
          "multipart/mixed", []⟩⟩).2.emailsFile = [] ∧
    getBlob (handle_DATA env0 emptyStore ⟨"s@x", ["r@y"],
        some ⟨[], true, [containerPart, attPart, badTextPart],
          "multipart/mixed", []⟩⟩).2.blobs (attachmentPath 1 "a.txt") =
      some [97] ∧
    (handle_DATA envDump ⟨[rec0], [rec0], []⟩ (textEnvlp "hi")).1 =
      "500 Error processing message" ∧
    (handle_DATA envDump ⟨[rec0], [rec0], []⟩ (textEnvlp "hi")).2.emails.map
      (fun r => r.id) = [1, 2] ∧
    (handle_DATA envDump ⟨[rec0], [rec0], []⟩ (textEnvlp "hi")).2.emailsFile =
      [] := by
  decide

/-- Claim C2 amended: every failed ingestion falls into exactly one of
two cases. A failure before the record commit (parse, decode or
attachment-write failure) leaves the record list unchanged in memory
and in the emails file — though attachment blobs written earlier in
the attempt remain persisted, so orphan blobs are possible. A failure
at the record-file write happens after `self.emails.append`, so the
appended record stays in the in-memory list and the emails file is
left truncated: memory and file diverge. -/
theorem C2_amended_failed_ingestion_dichotomy (env : Env) (st : Store)
    (e : Envelope)
    (h : (handle_DATA env st e).1 = "500 Error processing message") :
    ((handle_DATA env st e).2.emails = st.emails ∧
      (handle_DATA env st e).2.emailsFile = st.emailsFile) ∨
    (env.dumpFails = true ∧ ∃ r : EmailRecord,
      (handle_DATA env st e).2.emails = st.emails ++ [r] ∧
      (handle_DATA env st e).2.emailsFile = []) := by
  unfold handle_DATA at h ⊢
  cases hp : e.parsed with
  | none => simp [hp]
  | some msg =>
      simp only [hp] at h ⊢
      cases hw : walkResult env (st.emails.length + 1) st.blobs msg with
      | error bs => simp [hw]
      | ok q =>
          obtain ⟨atts, bh, bt, bs⟩ := q
          cases hd : env.dumpFails with
          | true =>
              simp only [hw, hd, if_true]
              exact Or.inr ⟨trivial, _, rfl, trivial⟩
          | false => simp [hw, hd] at h

/-- Witness for C2's amended theorem at the concrete record-write
failure of the counterexample. -/
theorem C2_amended_witness :
    ((handle_DATA envDump ⟨[rec0], [rec0], []⟩ (textEnvlp "hi")).2.emails =
        (⟨[rec0], [rec0], []⟩ : Store).emails ∧
      (handle_DATA envDump ⟨[rec0], [rec0], []⟩ (textEnvlp "hi")).2.emailsFile =
        (⟨[rec0], [rec0], []⟩ : Store).emailsFile) ∨
    (envDump.dumpFails = true ∧ ∃ r : EmailRecord,
      (handle_DATA envDump ⟨[rec0], [rec0], []⟩ (textEnvlp "hi")).2.emails =
        (⟨[rec0], [rec0], []⟩ : Store).emails ++ [r] ∧
      (handle_DATA envDump ⟨[rec0], [rec0], []⟩ (textEnvlp "hi")).2.emailsFile =
        []) :=
  C2_amended_failed_ingestion_dichotomy envDump ⟨[rec0], [rec0], []⟩
    (textEnvlp "hi") (by decide)

/-- After filtering out an id, no record with that id can be found. -/
theorem find?_filter_id_none (l : List EmailRecord) (i : Nat) :
    (l.filter (fun e => ¬ (e.id == i))).find? (fun e => e.id == i) = none := by
  rw [List.find?_eq_none]
  intro x hx
  have h2 := (List.mem_filter.mp hx).2
  simp only [decide_not, Bool.not_eq_eq_eq_not, Bool.not_true,
    decide_eq_false_iff_not] at h2
  simpa using h2

/-- Claim C7: deleting the same identifier twice: the first
`delete_email` call succeeds, removes every record with that id from
the emails file and removes the found record's attachment blobs from
disk; the second call returns not-found and leaves the state unchanged.
The success of the first call does not depend on the blobs present in
`st.blobs`, so a delete whose referenced blob is already missing still
reports success. -/
theorem C7_delete_twice (st : Store) (i : Nat) (email : EmailRecord)
    (hfind : st.emailsFile.find? (fun e => e.id == i) = some email) :
    (delete_email st i).1 = .deleted ∧
    (email.attachments.all
      (fun a => getBlob (delete_email st i).2.blobs a.path == none)) = true ∧
    (delete_email st i).2.emailsFile.find? (fun e => e.id == i) = none ∧
    (delete_email (delete_email st i).2 i).1 = .notFound ∧
    (delete_email (delete_email st i).2 i).2 = (delete_email st i).2 := by
  have hres : delete_email st i =
      (.deleted,
        { st with
            emailsFile := st.emailsFile.filter (fun e => ¬ (e.id == i)),
            blobs := email.attachments.foldl
              (fun bs a => removeBlob bs a.path) st.blobs }) := by
    simp [delete_email, hfind]
  have hgone : (delete_email st i).2.emailsFile.find? (fun e => e.id == i) = none := by
    rw [hres]
    exact find?_filter_id_none st.emailsFile i
  have hfalse : ∀ l : List EmailRecord, l.find? (fun _ => false) = none := by
    intro l
    rw [List.find?_eq_none]
    intro x hx
    simp
  refine ⟨by rw [hres], ?_, hgone, ?_, ?_⟩
  · rw [hres]
    rw [List.all_eq_true]
    intro a ha
    have : getBlob (email.attachments.foldl
        (fun bs a => removeBlob bs a.path) st.blobs) a.path = none :=
      getBlob_fold_removeBlob email.attachments st.blobs a.path
        (List.mem_map_of_mem (fun a => a.path) ha)
    simp [this]
  · rw [hres]
    simp [delete_email, find?_filter_id_none, hfalse]
  · rw [hres]
    simp [delete_email, find?_filter_id_none, hfalse]

/-- A concrete stored record with two attachment references. -/
def rec7 : EmailRecord :=
  ⟨1, "s@x", ["r@y"], "Hi", "d", some "hi", none,
    [⟨"a.txt", attachmentPath 1 "a.txt", "application/pdf"⟩,
     ⟨"b.txt", attachmentPath 1 "b.txt", "text/plain"⟩], []⟩

/-- A concrete store holding `rec7`, with a blob on disk for only the
first of its two attachment references (the second blob is already
missing, exercising the non-fatal cleanup branch). -/
def st7 : Store := ⟨[rec7], [rec7], [(attachmentPath 1 "a.txt", [97])]⟩

/-- Witness for C7 at the concrete store `st7`. -/
theorem C7_witness :
    (delete_email st7 1).1 = .deleted ∧
    (rec7.attachments.all
      (fun a => getBlob (delete_email st7 1).2.blobs a.path == none)) = true ∧
    (delete_email st7 1).2.emailsFile.find? (fun e => e.id == 1) = none ∧
    (delete_email (delete_email st7 1).2 1).1 = .notFound ∧
    (delete_email (delete_email st7 1).2 1).2 = (delete_email st7 1).2 :=
  C7_delete_twice st7 1 rec7 rfl

/-- Claim C10: for every store and identifier present in the emails
file, `delete_email` reports success and removes exactly the records
whose id equals that identifier: the surviving list is a sublist of the
original (every kept record unchanged and in the same relative order),
contains no record with the deleted id, and its length drops by exactly
the number of matching records. The deleting handler's in-memory list
and the rewritten emails file are the same list in this model. -/
theorem C10_delete_exact_frame (st : Store) (i : Nat)
    (h : 0 < st.emailsFile.countP (fun e => e.id == i)) :
    (delete_email st i).1 = .deleted ∧
    (delete_email st i).2.emailsFile.Sublist st.emailsFile ∧
    (delete_email st i).2.emailsFile.countP (fun e => e.id == i) = 0 ∧
    (delete_email st i).2.emailsFile.length =
      st.emailsFile.length - st.emailsFile.countP (fun e => e.id == i) := by
  obtain ⟨a, ha, hpa⟩ := List.countP_pos_iff.mp h
  have hsome : (st.emailsFile.find? (fun e => e.id == i)).isSome := by
    cases hf : st.emailsFile.find? (fun e => e.id == i) with
    | none => exact absurd hpa (by simpa using List.find?_eq_none.mp hf a ha)
    | some email => rfl
  obtain ⟨email, hfind⟩ := Option.isSome_iff_exists.mp hsome
  have hres : delete_email st i =
      (.deleted,
        { st with
            emailsFile := st.emailsFile.filter (fun e => ¬ (e.id == i)),
            blobs := email.attachments.foldl
              (fun bs a => removeBlob bs a.path) st.blobs }) := by
    simp [delete_email, hfind]
  rw [hres]
  refine ⟨rfl, List.filter_sublist _, ?_, ?_⟩
  · rw [List.countP_eq_zero]
    intro x hx
    have h2 := (List.mem_filter.mp hx).2
    simp only [decide_not, Bool.not_eq_eq_eq_not, Bool.not_true,
      decide_eq_false_iff_not] at h2
    simpa using h2
  · have hsplit := List.length_eq_countP_add_countP
      (p := fun e : EmailRecord => e.id == i) (l := st.emailsFile)
    have hflen : (st.emailsFile.filter (fun e => ¬ (e.id == i))).length =
        st.emailsFile.countP (fun e => ¬ (e.id == i)) :=
      (List.countP_eq_length_filter _ _).symm
    simp only [hflen]
    omega

/-- Witness for C10 at the concrete store `st7`. -/
theorem C10_witness :
    (delete_email st7 1).1 = .deleted ∧
    (delete_email st7 1).2.emailsFile.Sublist st7.emailsFile ∧
    (delete_email st7 1).2.emailsFile.countP (fun e => e.id == 1) = 0 ∧
    (delete_email st7 1).2.emailsFile.length =
      st7.emailsFile.length - st7.emailsFile.countP (fun e => e.id == 1) :=
  C10_delete_exact_frame st7 1 (by decide)

/-- Invariant for restart-free runs: the ids assigned along the run are
distinct and all exceed the current in-memory record count. -/
theorem assignedIds_nodup_aux (env : Env) (ops : List Op) :
    ∀ st : Store, Op.restart ∉ ops →
      (assignedIds env st ops).Nodup ∧
      ∀ j ∈ assignedIds env st ops, st.emails.length < j := by
  induction ops with
  | nil =>
      intro st _
      simp [assignedIds]
  | cons o os ih =>
      intro st hnr
      have hnr' : Op.restart ∉ os := fun hmem => hnr (List.mem_cons_of_mem _ hmem)
      cases o with
      | ingest e =>
          by_cases hok : ingestOk env st e
          · have hgoal : assignedIds env st (.ingest e :: os) =
                (st.emails.length + 1) ::
                  assignedIds env (stepOp env st (.ingest e)) os := by
              simp [assignedIds, hok]
            obtain ⟨r, hrid, hem, hef⟩ := handle_DATA_ok_append env st e
              (by simpa [ingestOk] using hok)
            have hlen : (stepOp env st (.ingest e)).emails.length =
                st.emails.length + 1 := by
              simp [stepOp, hem]
            obtain ⟨ihn, ihlt⟩ := ih (stepOp env st (.ingest e)) hnr'
            rw [hgoal]
            refine ⟨List.nodup_cons.mpr ⟨?_, ihn⟩, ?_⟩
            · intro hmem
              have hlt := ihlt _ hmem
              rw [hlen] at hlt
              omega
            · intro j hj
              rcases List.mem_cons.mp hj with hj | hj
              · omega
              · have hlt := ihlt _ hj
                rw [hlen] at hlt
                omega
          · have hgoal : assignedIds env st (.ingest e :: os) =
                assignedIds env (stepOp env st (.ingest e)) os := by
              simp [assignedIds, hok]
            have hmono : st.emails.length ≤
                (stepOp env st (.ingest e)).emails.length :=
              handle_DATA_emails_len_mono env st e
            obtain ⟨ihn, ihlt⟩ := ih (stepOp env st (.ingest e)) hnr'
            rw [hgoal]
            refine ⟨ihn, fun j hj => ?_⟩
            have hlt := ihlt _ hj
            omega
      | delete i =>
          have hgoal : assignedIds env st (.delete i :: os) =
              assignedIds env (stepOp env st (.delete i)) os := by
            simp [assignedIds]
          have hem : (stepOp env st (.delete i)).emails = st.emails :=
            delete_email_emails st i
          obtain ⟨ihn, ihlt⟩ := ih (stepOp env st (.delete i)) hnr'
          rw [hgoal]
          refine ⟨ihn, fun j hj => ?_⟩
          have hlt := ihlt _ hj
          rw [hem] at hlt
          exact hlt
      | restart => exact absurd (List.mem_cons_self _ _) hnr

/-- The run exhibiting id reuse: two ingestions, deletion of the first
record, a server restart (reloading `emails.json`), and a third
ingestion. -/
def traceC1 : List Op :=
  [.ingest (textEnvlp "one"), .ingest (textEnvlp "two"), .delete 1, .restart,
   .ingest (textEnvlp "three")]

/-- Claim C1 (as stated) is false: after a deletion, the count-plus-one
scheme reuses an id once the handler reloads the store. Along `traceC1`
the assigned ids are `[1, 2, 2]` — the third ingestion is assigned id 2,
the id of a record stored (and still stored) before — and the final
emails file holds two distinct records that share id 2. -/
theorem C1_counterexample :
    assignedIds env0 emptyStore traceC1 = [1, 2, 2] ∧
    ¬ (assignedIds env0 emptyStore traceC1).Nodup ∧
    (runOps env0 emptyStore traceC1).emailsFile.map (fun r => r.id) = [2, 2] := by
  decide

/-- Claim C1 amended: along any sequence of ingestions and deletions
performed without reloading the store from disk (no handler restart),
the ids assigned by `handle_DATA` from a fresh store are pairwise
distinct, so no id of a previously stored record is ever reassigned.
After a restart that follows a deletion, ids can be reused (see the
counterexample). -/
theorem C1_amended_ids_unique_without_restart (env : Env) (ops : List Op)
    (hnr : Op.restart ∉ ops) :
    (assignedIds env emptyStore ops).Nodup :=
  (assignedIds_nodup_aux env ops emptyStore hnr).1

/-- Witness for C1's amended theorem: a restart-free run with a
deletion in the middle still assigns distinct ids. -/
theorem C1_amended_witness :
    (assignedIds env0 emptyStore
      [.ingest (textEnvlp "one"), .ingest (textEnvlp "two"), .delete 1,
       .ingest (textEnvlp "three")]).Nodup :=
  C1_amended_ids_unique_without_restart env0
    [.ingest (textEnvlp "one"), .ingest (textEnvlp "two"), .delete 1,
     .ingest (textEnvlp "three")] (by decide)

end MailTrap
